import Mathlib

/-!
Shallow embedding of `extract_data.py` (wafer metrology extraction tool).

The grid produced by the CSV loader is modelled as a list of rows of cells.
A cell is either a text value (the loader's best-effort text form, which is
also how numeric-looking cells are stored, since every comparison in the
source goes through `str(...)`) or missing (`NaN` in pandas).

Numeric coercion (`float(...)` in the source) is modelled as a total
function into `Option PyFloat`: `none` corresponds to the `ValueError`
raised by the source (handled at each call site exactly as the source
handles it), and a successful coercion yields a `PyFloat` — a finite
value (kept as an exact rational), a signed infinity, or NaN.  In
particular `float` succeeds on a missing (pandas `NaN`) cell and on the
texts `nan`/`inf`/`infinity`, and NaN passes the source's `!= 0` guard,
exactly as in Python.  Finite arithmetic is exact (no rounding or
overflow), which is the one remaining abstraction at the float boundary.
-/

namespace WaferExtract

/-- A grid cell: a text value, or missing (pandas `NaN`). -/
inductive Cell where
  | str : String → Cell
  | empty : Cell
deriving Repr, DecidableEq

/-- The untyped grid: a list of rows of cells (`df` in the source). -/
def Grid := List (List Cell)

instance : DecidableEq Grid := by unfold Grid; infer_instance

/-- Python `str(cell)`: the text form of a cell (`str(nan) = "nan"`). -/
def cellText : Cell → String
  | .str s => s
  | .empty => "nan"

/-- pandas `pd.notna`. -/
def notna : Cell → Bool
  | .str _ => true
  | .empty => false

/-- Does `pat` start the character list `cs`? -/
def leadMatch : List Char → List Char → Bool
  | [], _ => true
  | _ :: _, [] => false
  | a :: as, b :: bs => a == b && leadMatch as bs

/-- Python's `pat in s` on character lists: `pat` occurs somewhere in
`cs`. -/
def hasSub (pat : List Char) : List Char → Bool
  | [] => leadMatch pat []
  | c :: rest => leadMatch pat (c :: rest) || hasSub pat rest

/-- Python `.upper()` (ASCII, which covers every string the tool
compares). -/
def upper (cs : List Char) : List Char := cs.map Char.toUpper

/-- Python whitespace for `.strip()`. -/
def isWS (c : Char) : Bool :=
  c == ' ' || c == '\t' || c == '\n' || c == '\r' || c == '\x0B' || c == '\x0C'

/-- Python `.strip()`: drop whitespace from both ends. -/
def trimList (cs : List Char) : List Char :=
  ((cs.dropWhile isWS).reverse.dropWhile isWS).reverse

/-- Case-insensitive-ready substring test: `pat in s` in Python, on the
strings' character lists. -/
def containsSub (s pat : String) : Bool := hasSub pat.data s.data

/-- `identifier.upper() in str(cell).upper()`, the marker test used by
`analyze_data_structure`. -/
def matchesIdent (c : Cell) (ident : String) : Bool :=
  hasSub (upper ident.data) (upper (cellText c).data)

/-- Number of rows (`len(df)`). -/
def nrows (g : Grid) : Nat := g.length

/-- The row at index `r`, or `[]` out of range (all source accesses are
guarded by `row_idx < len(df)`). -/
def rowAt (g : Grid) (r : Nat) : List Cell := (g.get? r).getD []

/-- `len(df.iloc[r])`: the length of row `r`. -/
def rowLen (g : Grid) (r : Nat) : Nat := (rowAt g r).length

/-- `df.iloc[r, c]`: the cell at `(r, c)` (all source accesses are guarded
by a bounds check, so the default is never observable). -/
def cellAt (g : Grid) (r c : Nat) : Cell := ((rowAt g r).get? c).getD Cell.empty

/-- Source test `pd.notna(col) and str(col).strip() != ''` used by
`analyze_wafer_structure` to count a row's non-empty cells. -/
def isNonEmptyCell (c : Cell) : Bool := notna c && !(trimList (cellText c).data).isEmpty

/-- `len([col for col in df.iloc[row_idx] if pd.notna(col) and str(col).strip() != ''])`. -/
def nonEmptyCount (row : List Cell) : Nat := (row.filter isNonEmptyCell).length

/-- `pd.notna(df.iloc[r, 0]) and pat in str(df.iloc[r, 0]).upper()`:
the column-0 marker test used by every per-block extraction loop. -/
def col0Has (g : Grid) (r : Nat) (pat : String) : Bool :=
  match (rowAt g r).get? 0 with
  | some c => notna c && hasSub pat.data (upper (cellText c).data)
  | none => false

/-! ### Numeric coercion (`float(...)`) -/

/-- The values a Python `float(...)` call can produce: a finite value
(kept exact as a rational), a signed infinity (`neg` is the sign), or
NaN. -/
inductive PyFloat where
  | fin : ℚ → PyFloat
  | inf : Bool → PyFloat
  | nan : PyFloat
deriving Repr, DecidableEq

/-- Python `v != 0` on a float: NaN and the infinities compare unequal to
zero (this is the guard at the sigma step). -/
def pyNe0 : PyFloat → Bool
  | .fin q => decide (q ≠ 0)
  | .inf _ => true
  | .nan => true

/-- Python `v == 0` on a float: only a finite zero is equal to zero (NaN
compares unequal to everything). -/
def pyEq0 : PyFloat → Bool
  | .fin q => decide (q = 0)
  | .inf _ => false
  | .nan => false

/-- Python float division for a non-zero divisor (the source divides only
after its `!= 0` guard): NaN propagates, a finite value over an infinity
is zero, an infinity over a finite value keeps a sign, and infinity over
infinity is NaN.  Finite division is exact. -/
def pyDiv : PyFloat → PyFloat → PyFloat
  | .nan, _ => .nan
  | _, .nan => .nan
  | .fin a, .fin b => .fin (a / b)
  | .fin _, .inf _ => .fin 0
  | .inf s, .fin b => .inf (s != decide (b < 0))
  | .inf _, .inf _ => .nan

/-- Fold a digit list into a natural number. -/
def digitsToNat (cs : List Char) : Nat :=
  cs.foldl (fun a c => a * 10 + (c.toNat - 48)) 0

/-- Consume an optional leading sign. -/
def parseSign : List Char → ℤ × List Char
  | '+' :: rest => (1, rest)
  | '-' :: rest => (-1, rest)
  | cs => (1, cs)

/-- Consume the rest of an underscore-grouped digit run (at least one
digit has been read into `acc`): an underscore must be followed by
another digit, as in Python numeric literals. -/
def digitsUAux (acc : List Char) : List Char → Option (List Char × List Char)
  | [] => some (acc.reverse, [])
  | '_' :: rest =>
    match rest with
    | c :: rest2 => if c.isDigit then digitsUAux (c :: acc) rest2 else none
    | [] => none
  | c :: rest =>
    if c.isDigit then digitsUAux (c :: acc) rest
    else some (acc.reverse, c :: rest)

/-- Split off a possibly-empty leading underscore-grouped digit run;
`none` on a malformed run (underscore not between digits). -/
def takeDigitsU : List Char → Option (List Char × List Char)
  | [] => some ([], [])
  | c :: rest =>
    if c.isDigit then digitsUAux [c] rest
    else some ([], c :: rest)

/-- Parse the exponent tail after the `e`/`E`: sign and at least one digit,
consuming the whole remainder. -/
def parseExpTail (cs : List Char) : Option ℤ :=
  let sg := parseSign cs
  match takeDigitsU sg.2 with
  | none => none
  | some (ds, rest) =>
    if ds.isEmpty || !rest.isEmpty then none
    else some (sg.1 * (digitsToNat ds : ℤ))

/-- Assemble sign, integer part, fraction part and decimal exponent. -/
def mkQ (sgn : ℤ) (ip fp : List Char) (e : ℤ) : ℚ :=
  (sgn : ℚ) * ((digitsToNat ip : ℚ) + (digitsToNat fp : ℚ) / (10 : ℚ) ^ fp.length)
    * (10 : ℚ) ^ e

/-- Python `float(s)` on a string: optional whitespace and sign, then
either one of the special spellings `nan`/`inf`/`infinity`
(case-insensitive) or underscore-grouped decimal digits with an optional
point (at least one digit overall) and an optional exponent.  Anything
else yields `none` (= `ValueError` at the call sites). -/
def parseFloat (s : String) : Option PyFloat :=
  let cs := trimList s.data
  let sg := parseSign cs
  let low := sg.2.map Char.toLower
  if low == "nan".data then some PyFloat.nan
  else if low == "inf".data || low == "infinity".data then
    some (PyFloat.inf (decide (sg.1 < 0)))
  else
    match takeDigitsU sg.2 with
    | none => none
    | some (ip, rest1) =>
      match (match rest1 with
             | '.' :: rest => takeDigitsU rest
             | _ => some ([], rest1)) with
      | none => none
      | some (fp, rest2) =>
        if ip.isEmpty && fp.isEmpty then none
        else
          match rest2 with
          | [] => some (PyFloat.fin (mkQ sg.1 ip fp 0))
          | 'e' :: rest => (parseExpTail rest).map fun e => PyFloat.fin (mkQ sg.1 ip fp e)
          | 'E' :: rest => (parseExpTail rest).map fun e => PyFloat.fin (mkQ sg.1 ip fp e)
          | _ => none

/-- `float(cell)`: numeric coercion of a cell.  On a missing cell pandas
hands `float` a `NaN`, and `float(nan)` succeeds returning NaN — it does
not raise. -/
def floatCell (c : Cell) : Option PyFloat :=
  match c with
  | .str s => parseFloat s
  | .empty => some PyFloat.nan

/-- `float(cell) == 0` under the source's inner `try`: a `ValueError`
(`none`) is caught and the row is skipped, so it behaves as a failed
comparison. -/
def isZeroCoerce (c : Cell) : Bool :=
  match floatCell c with
  | some v => pyEq0 v
  | none => false

/-! ### IdentifierIndex (`analyze_data_structure`) -/

/-- Inner loop of the identifier scan: positions in one row (row index `r`,
first column index `c`) whose cell matches the identifier. -/
def rowMatches (ident : String) (r : Nat) : Nat → List Cell → List (Nat × Nat)
  | _, [] => []
  | c, cell :: rest =>
    (if matchesIdent cell ident then [(r, c)] else []) ++ rowMatches ident r (c + 1) rest

/-- Outer loop of the identifier scan, starting at row index `n`. -/
def findPositionsAux (ident : String) : Nat → List (List Cell) → List (Nat × Nat)
  | _, [] => []
  | r, row :: rest => rowMatches ident r 0 row ++ findPositionsAux ident (r + 1) rest

/-- All `(row, col)` positions whose cell text contains `ident`
case-insensitively — one entry of the `identifier_positions` dict built by
`analyze_data_structure`. -/
def findPositions (g : Grid) (ident : String) : List (Nat × Nat) :=
  findPositionsAux ident 0 g

/-- The fixed marker vocabulary of the scan (`key_identifiers`). -/
def key_identifiers : List String := ["WAFER ID", "SLOT", "MEAN", "3 SIGMA", "Site #"]

/-- `wafer_id_rows`: the rows of all `WAFER ID` matches, in scan order. -/
def waferIdRows (g : Grid) : List Nat := (findPositions g "WAFER ID").map Prod.fst

/-! ### BlockSegmenter -/

/-- The per-wafer block boundaries: each `WAFER ID` row paired with the next
`WAFER ID` row, or `len(df)` for the last one. -/
def blocksAux (glen : Nat) : List Nat → List (Nat × Nat)
  | [] => []
  | [r] => [(r, glen)]
  | r :: r' :: rest => (r, r') :: blocksAux glen (r' :: rest)

/-- The ordered wafer blocks of a grid. -/
def blocks (g : Grid) : List (Nat × Nat) := blocksAux (nrows g) (waferIdRows g)

/-! ### Section analysis (`analyze_wafer_structure`) -/

/-- Rows of `range(a, b)` that exist in the grid and whose non-empty cell
count satisfies `p`. -/
def sectionRows (g : Grid) (a b : Nat) (p : Nat → Bool) : List Nat :=
  (List.range' a (b - a)).filter fun r =>
    match g.get? r with
    | some row => p (nonEmptyCount row)
    | none => false

/-- `sections['2_col']`: rows with exactly 2 non-empty cells. -/
def rows2 (g : Grid) (a b : Nat) : List Nat := sectionRows g a b (· == 2)

/-- `sections['5_col']`: rows with 4 to 6 non-empty cells. -/
def rows5 (g : Grid) (a b : Nat) : List Nat :=
  sectionRows g a b (fun c => decide (4 ≤ c) && decide (c ≤ 6))

/-- `sections['14_col']`: rows with at least 10 non-empty cells. -/
def rows14 (g : Grid) (a b : Nat) : List Nat := sectionRows g a b (fun c => decide (10 ≤ c))

/-! ### ColumnClassifier (`find_column_headers`)

This function exists in the source but is never invoked by
`extract_wafer_data`, which instead hard-codes its column positions.  It is
embedded because several claims refer to the header-search procedure. -/

/-- The role-to-column mapping built by `find_column_headers`. -/
structure ColumnMapping where
  n1_633 : Option Nat
  t1 : Option Nat
  x : Option Nat
  y : Option Nat
deriving Repr, DecidableEq

/-- One cell of the header scan: the `if/elif` chain of
`find_column_headers` (later matches overwrite earlier ones). -/
def updateCell (m : ColumnMapping) (c : Nat) (cell : Cell) : ColumnMapping :=
  let cs := upper (cellText cell).data
  if hasSub "N1".data cs && hasSub "633".data cs then { m with n1_633 := some c }
  else if hasSub "T1".data cs && !hasSub "N1".data cs then { m with t1 := some c }
  else if cs == "X".data then { m with x := some c }
  else if cs == "Y".data then { m with y := some c }
  else m

/-- One row of the header scan. -/
def updateRow (m : ColumnMapping) : Nat → List Cell → ColumnMapping
  | _, [] => m
  | c, cell :: rest => updateRow (updateCell m c cell) (c + 1) rest

/-- `find_column_headers(df, start_row, end_row)`: scan rows
`range(start_row, min(end_row, len(df)))`, updating the mapping cell by
cell. -/
def find_column_headers (g : Grid) (a b : Nat) : ColumnMapping :=
  ((List.range' a (min b (nrows g) - a)).map (rowAt g)).foldl
    (fun m row => updateRow m 0 row) ⟨none, none, none, none⟩

/-! ### FieldExtractor (`extract_wafer_data`) -/

/-- One output record (`result` dict): five nullable fields.  `lot_id` and
`N1_XY_00` hold raw cell values; the other three are coerced numbers. -/
structure ExtractionResult where
  lot_id : Option Cell
  N1_mean : Option PyFloat
  T1_mean : Option PyFloat
  T1_3sigma_mean : Option PyFloat
  N1_XY_00 : Option Cell
deriving Repr, DecidableEq

/-- Step 1 (`SLOT` in the 2-column section): the first row whose column-0
text contains `SLOT` and whose row is wider than 1 column gives
`lot_id = df.iloc[r, 1]`; a matching row of width ≤ 1 does not break the
loop in the source, so the scan continues past it. -/
def slotRead (g : Grid) : List Nat → Option Cell
  | [] => none
  | r :: rest =>
    if col0Has g r "SLOT" then
      if 1 < rowLen g r then some (cellAt g r 1) else slotRead g rest
    else slotRead g rest

/-- Second half of reading the `MEAN` row: `T1_mean = float(df.iloc[r, 4])`
guarded by the row-width check, with `n1` the already-assigned first field.
The returned flag records whether the `float` call raised. -/
def meanRowT1 (g : Grid) (r : Nat) (n1 : Option PyFloat) :
    (Option PyFloat × Option PyFloat) × Bool :=
  if 4 < rowLen g r then
    match floatCell (cellAt g r 4) with
    | some v => ((n1, some v), false)
    | none => ((n1, none), true)
  else ((n1, none), false)

/-- Reading the first `MEAN` row: `N1_mean = float(df.iloc[r, 2])` then
`T1_mean = float(df.iloc[r, 4])`, each guarded by a row-width check.  The
returned flag records whether a `float` call raised (a raise skips the
rest of the 5-column `try` block, i.e. every later assignment of the
step). -/
def meanRowRead (g : Grid) (r : Nat) : (Option PyFloat × Option PyFloat) × Bool :=
  if 2 < rowLen g r then
    match floatCell (cellAt g r 2) with
    | some v => meanRowT1 g r (some v)
    | none => ((none, none), true)
  else meanRowT1 g r none

/-- Reading the first `3 SIGMA` row and forming the ratio with the
`T1_mean` value `t` (which passed the `!= 0` guard — it may still be NaN
or an infinity).  A `float` failure here is caught by the step's `except`
and leaves the field null. -/
def sigmaRead (g : Grid) (l : List Nat) (t : PyFloat) : Option PyFloat :=
  match l.find? (fun r => col0Has g r "3 SIGMA") with
  | none => none
  | some r =>
    if 4 < rowLen g r then (floatCell (cellAt g r 4)).map (fun v => pyDiv v t)
    else none

/-- Step 2 (the 5-column `try` block): `N1_mean`, `T1_mean` from the first
`MEAN` row at the fixed columns 2 and 4, then `T1_3sigma_mean` guarded by
`T1_mean is not None and T1_mean != 0` (NaN and the infinities pass the
guard). -/
def meanSigma (g : Grid) (l : List Nat) :
    Option PyFloat × Option PyFloat × Option PyFloat :=
  match l.find? (fun r => col0Has g r "MEAN") with
  | none => (none, none, none)
  | some r =>
    match meanRowRead g r with
    | ((n1, t1), true) => (n1, t1, none)
    | ((n1, t1), false) =>
      match t1 with
      | none => (n1, t1, none)
      | some t => if pyNe0 t then (n1, t1, sigmaRead g l t) else (n1, t1, none)

/-- The per-row test of the `X=0, Y=0` scan: both fixed columns 5 and 6
must exist, be non-missing and coerce to numeric zero (a coercion failure
is caught by the inner `except` and skips the row). -/
def qualifiesXY (g : Grid) (s r : Nat) : Bool :=
  decide (s < r) && decide (r < nrows g) &&
    (decide (5 < rowLen g r) && (notna (cellAt g r 5) && isZeroCoerce (cellAt g r 5))) &&
    (decide (6 < rowLen g r) && (notna (cellAt g r 6) && isZeroCoerce (cellAt g r 6)))

/-- The `X=0, Y=0` scan over the 14-column section rows after the site
header row: the first qualifying row yields the raw cell at the fixed
column 2 (if that column existed not, the source would continue scanning —
kept faithfully even though a qualifying row always has more than 6
columns). -/
def scanXY (g : Grid) (s : Nat) : List Nat → Option Cell
  | [] => none
  | r :: rest =>
    if qualifiesXY g s r then
      if 2 < rowLen g r then some (cellAt g r 2) else scanXY g s rest
    else scanXY g s rest

/-- Step 3 (the 14-column `try` block): find the `Site #` header row, then
scan for the first `X=0, Y=0` row. -/
def siteRead (g : Grid) (l : List Nat) : Option Cell :=
  match l.find? (fun r => col0Has g r "SITE") with
  | none => none
  | some s => scanXY g s l

/-- One block's extraction (`result` for one wafer): the three independent
`try` blocks over the block's sections. -/
def extractBlock (g : Grid) (a b : Nat) : ExtractionResult where
  lot_id := slotRead g (rows2 g a b)
  N1_mean := (meanSigma g (rows5 g a b)).1
  T1_mean := (meanSigma g (rows5 g a b)).2.1
  T1_3sigma_mean := (meanSigma g (rows5 g a b)).2.2
  N1_XY_00 := siteRead g (rows14 g a b)

/-- `extract_wafer_data`: one record per wafer block, in block order; an
empty `WAFER ID` position list yields the empty result list. -/
def extract_wafer_data (g : Grid) : List ExtractionResult :=
  (blocks g).map fun p => extractBlock g p.1 p.2

/-! ## Concrete grids used by counterexamples and witnesses -/

/-- A block whose `MEAN` row has numeric cells but no header row with the
`N1`/`633`/`T1` tokens anywhere. -/
def gC1 : Grid := [
  [.str "WAFER ID", .str "W1"],
  [.str "MEAN", .str "1", .str "123", .str "3", .str "456"]]

/-- A block whose site header row declares `X` exactly at column 3 and `Y`
exactly at column 4 (and `N1@633` at column 2), with a data row that is
zero at columns 3 and 4 but non-zero at columns 5 and 6. -/
def gC2 : Grid := [
  [.str "WAFER ID", .str "W1"],
  [.str "Site #", .str "h1", .str "N1@633", .str "X", .str "Y", .str "h5", .str "h6",
   .str "h7", .str "h8", .str "h9", .str "h10", .str "h11", .str "h12", .str "h13"],
  [.str "1", .str "2", .str "7", .str "0", .str "0", .str "5", .str "6",
   .str "8", .str "9", .str "10", .str "11", .str "12", .str "13", .str "14"]]

/-- A block whose `MEAN` row sits in the 4-to-6-cell band but has a
missing (pandas `NaN`) cell in the T1 column, plus a numeric `3 SIGMA`
row: `float(nan)` succeeds, and the NaN passes the `!= 0` guard. -/
def gC3nan : Grid := [
  [.str "WAFER ID", .str "W1"],
  [.str "MEAN", .str "1", .str "2", .str "3", .empty],
  [.str "3 SIGMA", .str "1", .str "8", .str "3", .str "6"]]

/-- A block whose `3 SIGMA` row carries the text `inf` in the T1 column:
`float("inf")` succeeds and the ratio is infinite. -/
def gC3inf : Grid := [
  [.str "WAFER ID", .str "W1"],
  [.str "MEAN", .str "1", .str "2", .str "3", .str "4"],
  [.str "3 SIGMA", .str "1", .str "8", .str "3", .str "inf"]]

/-- A block whose `MEAN` row has a non-numeric cell in the N1 column
(column 2) and a numeric cell in the T1 column (column 4). -/
def gC4 : Grid := [
  [.str "WAFER ID", .str "W1"],
  [.str "MEAN", .str "1", .str "abc", .str "3", .str "456"]]

/-- A 100-row grid with `WAFER ID` rows at rows 0 and 50. -/
def gC5 : Grid :=
  [[Cell.str "WAFER ID", Cell.str "W1"]] ++ List.replicate 49 [Cell.str "x"] ++
  [[Cell.str "WAFER ID", Cell.str "W2"]] ++ List.replicate 49 [Cell.str "x"]

/-- A block whose only `SLOT` marker sits in a row with three non-empty
cells, with the lot value immediately to its right. -/
def gC6 : Grid := [
  [.str "WAFER ID", .str "W1"],
  [.str "SLOT", .str "LOT42", .str "A"]]

/-- A block whose site header matches the fixed columns (`X` at 5, `Y` at
6, `N1@633` at 2) and whose first `X=0, Y=0` row after the header has only
9 non-empty cells; a later 14-cell row also has `X=0, Y=0`. -/
def gC7 : Grid := [
  [.str "WAFER ID", .str "W1"],
  [.str "Site #", .str "h1", .str "N1@633", .str "h3", .str "h4", .str "X", .str "Y",
   .str "h7", .str "h8", .str "h9", .str "h10", .str "h11", .str "h12", .str "h13"],
  [.str "1", .str "2", .str "7", .str "4", .str "5", .str "0", .str "0",
   .str "8", .str "9", .str "", .str "", .str "", .str "", .str ""],
  [.str "1", .str "2", .str "9", .str "4", .str "5", .str "0", .str "0",
   .str "8", .str "9", .str "10", .str "11", .str "12", .str "13", .str "14"]]

/-- A block whose sigma row is labelled `3SIGMA` without the space. -/
def gC8ns : Grid := [
  [.str "WAFER ID", .str "W1"],
  [.str "MEAN", .str "1", .str "2", .str "3", .str "4"],
  [.str "3SIGMA", .str "1", .str "8", .str "3", .str "6"]]

/-- The same block with the sigma row labelled `3 SIGMA` with the space. -/
def gC8sp : Grid := [
  [.str "WAFER ID", .str "W1"],
  [.str "MEAN", .str "1", .str "2", .str "3", .str "4"],
  [.str "3 SIGMA", .str "1", .str "8", .str "3", .str "6"]]

/-- A grid with no `WAFER ID` marker at all. -/
def gC9 : Grid := [
  [.str "hello", .str "world"],
  [.str "MEAN", .str "1", .str "2", .str "3", .str "4"]]

/-- A full block in which all five fields resolve: `SLOT` row, `MEAN` row,
`3 SIGMA` row, site header and an `X=0, Y=0` data row. -/
def gC10 : Grid := [
  [.str "WAFER ID", .str "W1"],
  [.str "SLOT", .str "LOT42"],
  [.str "MEAN", .str "1", .str "2", .str "3", .str "4"],
  [.str "3 SIGMA", .str "1", .str "8", .str "3", .str "6"],
  [.str "Site #", .str "a", .str "b", .str "c", .str "d", .str "e", .str "f",
   .str "g", .str "h", .str "i", .str "j", .str "k", .str "l", .str "m"],
  [.str "1", .str "2", .str "9", .str "4", .str "5", .str "0", .str "0",
   .str "7", .str "8", .str "9", .str "10", .str "11", .str "12", .str "13"]]

/-! ## Helper lemmas -/

theorem mem_sectionRows {g : Grid} {a b r : Nat} {p : Nat → Bool} :
    r ∈ sectionRows g a b p ↔
      a ≤ r ∧ r < b ∧ ∃ row, g.get? r = some row ∧ p (nonEmptyCount row) = true := by
  unfold sectionRows
  rw [List.mem_filter, List.mem_range'_1]
  constructor
  · rintro ⟨⟨h1, h2⟩, h3⟩
    refine ⟨h1, by omega, ?_⟩
    cases hg : g.get? r with
    | none => rw [hg] at h3; exact absurd h3 (by simp)
    | some row => rw [hg] at h3; exact ⟨row, rfl, h3⟩
  · rintro ⟨h1, h2, row, hg, hp⟩
    refine ⟨⟨h1, by omega⟩, ?_⟩
    rw [hg]; exact hp

theorem pairwise_range'_lt (a n : Nat) : List.Pairwise (· < ·) (List.range' a n) := by
  induction n generalizing a with
  | zero => exact List.Pairwise.nil
  | succ n ih =>
    rw [show List.range' a (n + 1) = a :: List.range' (a + 1) n from rfl]
    refine List.pairwise_cons.mpr ⟨fun b hb => ?_, ih (a + 1)⟩
    have := List.mem_range'_1.mp hb
    omega

theorem sectionRows_pairwise (g : Grid) (a b : Nat) (p : Nat → Bool) :
    List.Pairwise (· < ·) (sectionRows g a b p) :=
  List.Pairwise.filter _ (pairwise_range'_lt a (b - a))

theorem slotRead_eq_find? (g : Grid) (l : List Nat) :
    slotRead g l =
      (l.find? fun r => col0Has g r "SLOT" && decide (1 < rowLen g r)).map
        fun r => cellAt g r 1 := by
  induction l with
  | nil => rfl
  | cons r rest ih =>
    by_cases h1 : col0Has g r "SLOT" = true
    · by_cases h2 : 1 < rowLen g r
      · rw [List.find?_cons_of_pos _ (by simp [h1, h2])]
        simp [slotRead, h1, h2]
      · rw [List.find?_cons_of_neg _ (by simp [h1, h2])]
        simp [slotRead, h1, h2, ih]
    · rw [List.find?_cons_of_neg _ (by simp [h1])]
      simp [slotRead, h1, ih]

theorem qualifiesXY_rowLen {g : Grid} {s r : Nat} (h : qualifiesXY g s r = true) :
    2 < rowLen g r := by
  unfold qualifiesXY at h
  simp only [Bool.and_eq_true, decide_eq_true_eq] at h
  omega

theorem scanXY_eq_find? (g : Grid) (s : Nat) (l : List Nat) :
    scanXY g s l = (l.find? (qualifiesXY g s)).map fun r => cellAt g r 2 := by
  induction l with
  | nil => rfl
  | cons r rest ih =>
    by_cases hq : qualifiesXY g s r = true
    · have h2 : 2 < rowLen g r := qualifiesXY_rowLen hq
      rw [List.find?_cons_of_pos _ hq]
      simp [scanXY, hq, h2]
    · rw [List.find?_cons_of_neg _ (by simp [hq])]
      simp [scanXY, hq, ih]

theorem find?_first {l : List Nat} {p : Nat → Bool} {r : Nat}
    (hs : List.Pairwise (· < ·) l) (hm : r ∈ l) (hp : p r = true)
    (hmin : ∀ x ∈ l, p x = true → r ≤ x) : l.find? p = some r := by
  induction l with
  | nil => cases hm
  | cons a rest ih =>
    rcases List.mem_cons.mp hm with h | h
    · subst h; exact List.find?_cons_of_pos _ hp
    · have hlt : a < r := (List.pairwise_cons.mp hs).1 r h
      have hpa : ¬ p a = true := by
        intro ht
        exact absurd (hmin a (List.mem_cons_self a rest) ht) (by omega)
      rw [List.find?_cons_of_neg _ hpa]
      exact ih (List.pairwise_cons.mp hs).2 h
        (fun x hx hpx => hmin x (List.mem_cons_of_mem _ hx) hpx)

theorem mem_rowMatches {ident : String} {r : Nat} {row : List Cell} {r' c : Nat} :
    ∀ {c0 : Nat}, ((r', c) ∈ rowMatches ident r c0 row ↔
      r' = r ∧ ∃ j cell, row.get? j = some cell ∧ c = c0 + j ∧
        matchesIdent cell ident = true) := by
  induction row with
  | nil => intro c0; simp [rowMatches]
  | cons cell rest ih =>
    intro c0
    rw [rowMatches, List.mem_append]
    constructor
    · rintro (h | h)
      · by_cases hm : matchesIdent cell ident = true
        · simp only [hm, if_true, List.mem_singleton] at h
          obtain ⟨h1, h2⟩ := Prod.mk.injEq .. ▸ h
          exact ⟨by omega, 0, cell, rfl, by omega, hm⟩
        · simp [hm] at h
      · rcases ih.mp h with ⟨h1, j, cl, hg, hc, hmc⟩
        exact ⟨h1, j + 1, cl, by simpa using hg, by omega, hmc⟩
    · rintro ⟨h1, j, cl, hg, hc, hmc⟩
      cases j with
      | zero =>
        left
        have hcl : cl = cell := by simpa using hg.symm
        subst hcl
        simp only [hmc, if_true, List.mem_singleton]
        subst h1
        have : c = c0 := by omega
        subst this
        rfl
      | succ j =>
        right
        exact ih.mpr ⟨h1, j, cl, by simpa using hg, by omega, hmc⟩

theorem mem_findPositionsAux {ident : String} {l : List (List Cell)} {r c : Nat} :
    ∀ {n : Nat}, ((r, c) ∈ findPositionsAux ident n l ↔
      ∃ i row, l.get? i = some row ∧ r = n + i ∧
        ∃ cell, row.get? c = some cell ∧ matchesIdent cell ident = true) := by
  induction l with
  | nil => intro n; simp [findPositionsAux]
  | cons row rest ih =>
    intro n
    rw [findPositionsAux, List.mem_append]
    constructor
    · rintro (h | h)
      · rcases mem_rowMatches.mp h with ⟨h1, j, cell, hg, hc, hmc⟩
        refine ⟨0, row, rfl, by omega, cell, ?_, hmc⟩
        have : c = j := by omega
        subst this; exact hg
      · rcases ih.mp h with ⟨i, row', hg, hr, cell, hgc, hmc⟩
        exact ⟨i + 1, row', by simpa using hg, by omega, cell, hgc, hmc⟩
    · rintro ⟨i, row', hg, hr, cell, hgc, hmc⟩
      cases i with
      | zero =>
        left
        have hrow : row' = row := by simpa using hg.symm
        subst hrow
        exact mem_rowMatches.mpr ⟨by omega, c, cell, hgc, by omega, hmc⟩
      | succ i =>
        right
        exact ih.mpr ⟨i, row', by simpa using hg, by omega, cell, hgc, hmc⟩

theorem mem_findPositions {g : Grid} {ident : String} {r c : Nat} :
    (r, c) ∈ findPositions g ident ↔
      ∃ row, g.get? r = some row ∧ ∃ cell, row.get? c = some cell ∧
        matchesIdent cell ident = true := by
  unfold findPositions
  rw [mem_findPositionsAux]
  constructor
  · rintro ⟨i, row, hg, hr, rest⟩
    have : i = r := by omega
    subst this
    exact ⟨row, hg, rest⟩
  · rintro ⟨row, hg, rest⟩
    exact ⟨r, row, hg, by omega, rest⟩

theorem rowMatches_fst {ident : String} {r : Nat} {row : List Cell} :
    ∀ {c0 : Nat} {q : Nat × Nat}, q ∈ rowMatches ident r c0 row → q.1 = r := by
  induction row with
  | nil => intro c0 q h; simp [rowMatches] at h
  | cons cell rest ih =>
    intro c0 q h
    rw [rowMatches, List.mem_append] at h
    rcases h with h | h
    · by_cases hm : matchesIdent cell ident = true
      · simp only [hm, if_true, List.mem_singleton] at h
        rw [h]
      · simp [hm] at h
    · exact ih h

theorem findPositionsAux_fst_ge {ident : String} {l : List (List Cell)} :
    ∀ {n : Nat} {q : Nat × Nat}, q ∈ findPositionsAux ident n l → n ≤ q.1 := by
  induction l with
  | nil => intro n q h; simp [findPositionsAux] at h
  | cons row rest ih =>
    intro n q h
    rw [findPositionsAux, List.mem_append] at h
    rcases h with h | h
    · rw [rowMatches_fst h]
    · have := ih h
      omega

theorem pairwise_of_all {α : Type} {R : α → α → Prop} :
    ∀ {l : List α}, (∀ a ∈ l, ∀ b ∈ l, R a b) → l.Pairwise R := by
  intro l
  induction l with
  | nil => intro _; exact .nil
  | cons a t ih =>
    intro h
    refine List.pairwise_cons.mpr ⟨fun b hb => ?_, ih fun x hx y hy => ?_⟩
    · exact h a (List.mem_cons_self a t) b (List.mem_cons_of_mem _ hb)
    · exact h x (List.mem_cons_of_mem _ hx) y (List.mem_cons_of_mem _ hy)

theorem findPositionsAux_pairwise {ident : String} {l : List (List Cell)} :
    ∀ {n : Nat}, List.Pairwise (fun p q : Nat × Nat => p.1 ≤ q.1) (findPositionsAux ident n l) := by
  induction l with
  | nil => intro n; exact .nil
  | cons row rest ih =>
    intro n
    rw [findPositionsAux, List.pairwise_append]
    refine ⟨pairwise_of_all fun p hp q hq => ?_, ih, fun p hp q hq => ?_⟩
    · rw [rowMatches_fst hp, rowMatches_fst hq]
    · rw [rowMatches_fst hp]
      have := findPositionsAux_fst_ge hq
      omega

theorem waferIdRows_sorted (g : Grid) : List.Sorted (· ≤ ·) (waferIdRows g) :=
  List.pairwise_map.mpr findPositionsAux_pairwise

theorem blocksAux_length (glen : Nat) (l : List Nat) :
    (blocksAux glen l).length = l.length := by
  induction l with
  | nil => rfl
  | cons r rest ih =>
    cases rest with
    | nil => rfl
    | cons r' rest' => simpa [blocksAux] using ih

theorem blocksAux_getD (glen : Nat) (l : List Nat) :
    ∀ i, i < l.length →
      (blocksAux glen l).getD i (0, 0) = (l.getD i 0, l.getD (i + 1) glen) := by
  induction l with
  | nil => intro i hi; exact absurd hi (by simp)
  | cons r rest ih =>
    cases rest with
    | nil =>
      intro i hi
      cases i with
      | zero => rfl
      | succ j => simp at hi
    | cons r' rest' =>
      intro i hi
      cases i with
      | zero => rfl
      | succ j =>
        have hj : j < (r' :: rest').length := by simpa using hi
        have := ih j hj
        simpa [blocksAux, List.getD_cons_succ] using this

/-! Facts about reading the `MEAN` row. -/

theorem meanRowT1_fst (g : Grid) (r : Nat) (n1 : Option PyFloat) :
    (meanRowT1 g r n1).1.1 = n1 := by
  unfold meanRowT1
  split
  · split <;> rfl
  · rfl

theorem meanRowT1_snd_some {g : Grid} {r : Nat} {n1 : Option PyFloat} {w : PyFloat}
    (h : (meanRowT1 g r n1).1.2 = some w) :
    4 < rowLen g r ∧ floatCell (cellAt g r 4) = some w := by
  unfold meanRowT1 at h
  by_cases h4 : 4 < rowLen g r
  · rw [if_pos h4] at h
    cases hf : floatCell (cellAt g r 4) with
    | none => rw [hf] at h; simp at h
    | some v =>
      rw [hf] at h
      refine ⟨h4, ?_⟩
      simpa using h
  · rw [if_neg h4] at h; simp at h

theorem meanRowT1_exc {g : Grid} {r : Nat} {n1 : Option PyFloat}
    (h : (meanRowT1 g r n1).2 = true) : (meanRowT1 g r n1).1.2 = none := by
  unfold meanRowT1 at h ⊢
  by_cases h4 : 4 < rowLen g r
  · rw [if_pos h4] at h ⊢
    cases hf : floatCell (cellAt g r 4) with
    | none => rfl
    | some v => rw [hf] at h; simp at h
  · rw [if_neg h4] at h ⊢

theorem meanRowRead_n1_some {g : Grid} {r : Nat} {v : PyFloat}
    (h : (meanRowRead g r).1.1 = some v) :
    2 < rowLen g r ∧ floatCell (cellAt g r 2) = some v := by
  unfold meanRowRead at h
  by_cases h2 : 2 < rowLen g r
  · rw [if_pos h2] at h
    cases hf : floatCell (cellAt g r 2) with
    | none => rw [hf] at h; simp at h
    | some u =>
      rw [hf] at h
      exact ⟨h2, (meanRowT1_fst g r (some u)).symm.trans h⟩
  · rw [if_neg h2, meanRowT1_fst] at h
    simp at h

theorem meanRowRead_t1_some {g : Grid} {r : Nat} {w : PyFloat}
    (h : (meanRowRead g r).1.2 = some w) :
    4 < rowLen g r ∧ floatCell (cellAt g r 4) = some w := by
  unfold meanRowRead at h
  by_cases h2 : 2 < rowLen g r
  · rw [if_pos h2] at h
    cases hf : floatCell (cellAt g r 2) with
    | none => rw [hf] at h; simp at h
    | some u => rw [hf] at h; exact meanRowT1_snd_some h
  · rw [if_neg h2] at h; exact meanRowT1_snd_some h

theorem meanRowRead_exc {g : Grid} {r : Nat}
    (h : (meanRowRead g r).2 = true) : (meanRowRead g r).1.2 = none := by
  unfold meanRowRead at h ⊢
  by_cases h2 : 2 < rowLen g r
  · rw [if_pos h2] at h ⊢
    cases hf : floatCell (cellAt g r 2) with
    | none => rfl
    | some u =>
      rw [hf] at h
      exact meanRowT1_exc h
  · rw [if_neg h2] at h ⊢; exact meanRowT1_exc h

/-! Facts about the combined `MEAN`/`3 SIGMA` step. -/

theorem meanSigma_n1_some {g : Grid} {l : List Nat} {v : PyFloat}
    (h : (meanSigma g l).1 = some v) :
    ∃ r, l.find? (fun s => col0Has g s "MEAN") = some r ∧
      2 < rowLen g r ∧ floatCell (cellAt g r 2) = some v := by
  cases hm : l.find? (fun s => col0Has g s "MEAN") with
  | none => unfold meanSigma at h; rw [hm] at h; simp at h
  | some r =>
    simp only [meanSigma, hm] at h
    rcases hr : meanRowRead g r with ⟨⟨n1, t1⟩, exc⟩
    rw [hr] at h
    have hn1 : n1 = some v := by
      cases exc with
      | true => exact h
      | false =>
        cases t1 with
        | none => exact h
        | some t =>
          by_cases ht : pyNe0 t = true
          · simp [ht] at h; exact h
          · simp [ht] at h; exact h
    refine ⟨r, rfl, meanRowRead_n1_some ?_⟩
    rw [hr]
    exact hn1

theorem meanSigma_t1_some {g : Grid} {l : List Nat} {t : PyFloat}
    (h : (meanSigma g l).2.1 = some t) :
    ∃ r, l.find? (fun s => col0Has g s "MEAN") = some r ∧
      4 < rowLen g r ∧ floatCell (cellAt g r 4) = some t := by
  cases hm : l.find? (fun s => col0Has g s "MEAN") with
  | none => unfold meanSigma at h; rw [hm] at h; simp at h
  | some r =>
    simp only [meanSigma, hm] at h
    rcases hr : meanRowRead g r with ⟨⟨n1, t1⟩, exc⟩
    rw [hr] at h
    have ht1 : t1 = some t := by
      cases exc with
      | true => exact h
      | false =>
        cases t1 with
        | none => exact h
        | some t' =>
          by_cases ht' : pyNe0 t' = true
          · simp [ht'] at h
            rw [h]
          · simp [ht'] at h
            rw [h]
    refine ⟨r, rfl, meanRowRead_t1_some ?_⟩
    rw [hr]
    exact ht1

theorem meanSigma_sigma_iff (g : Grid) (l : List Nat) (w : PyFloat) :
    (meanSigma g l).2.2 = some w ↔
      ∃ t sr v, (meanSigma g l).2.1 = some t ∧ pyNe0 t = true ∧
        l.find? (fun r => col0Has g r "3 SIGMA") = some sr ∧
        4 < rowLen g sr ∧ floatCell (cellAt g sr 4) = some v ∧ w = pyDiv v t := by
  cases hm : l.find? (fun s => col0Has g s "MEAN") with
  | none => simp [meanSigma, hm]
  | some r =>
    rcases hr : meanRowRead g r with ⟨⟨n1, t1⟩, exc⟩
    cases exc with
    | true =>
      have ht1 : t1 = none := by
        have h1 := meanRowRead_exc (g := g) (r := r) (by rw [hr])
        rw [hr] at h1
        exact h1
      subst ht1
      simp [meanSigma, hm, hr]
    | false =>
      cases t1 with
      | none => simp [meanSigma, hm, hr]
      | some t =>
        by_cases ht : pyNe0 t = true
        · simp only [meanSigma, hm, hr, if_pos ht]
          cases hs : l.find? (fun s => col0Has g s "3 SIGMA") with
          | none => simp [sigmaRead, hs]
          | some sr =>
            simp only [sigmaRead, hs]
            by_cases h4 : 4 < rowLen g sr
            · rw [if_pos h4]
              constructor
              · intro hq
                rcases Option.map_eq_some'.mp hq with ⟨v, hv, hq'⟩
                exact ⟨t, sr, v, rfl, ht, rfl, h4, hv, hq'.symm⟩
              · rintro ⟨t', sr', v', htt', ht2, hsr', h4', hv', hq⟩
                obtain rfl : t = t' := by simpa using htt'
                obtain rfl : sr = sr' := by simpa using hsr'
                rw [hv', Option.map_some']
                simp [hq]
            · rw [if_neg h4]
              constructor
              · intro hq; simp at hq
              · rintro ⟨t', sr', v', htt', ht2, hsr', h4', hv', hq⟩
                obtain rfl : sr = sr' := by simpa using hsr'
                exact absurd h4' h4
        · simp [meanSigma, hm, hr, ht]

/-! Fact about the site step. -/

theorem siteRead_eq (g : Grid) (l : List Nat) :
    siteRead g l =
      match l.find? (fun r => col0Has g r "SITE") with
      | none => none
      | some s => (l.find? (qualifiesXY g s)).map fun r => cellAt g r 2 := by
  unfold siteRead
  cases l.find? (fun r => col0Has g r "SITE") with
  | none => rfl
  | some s => exact scanXY_eq_find? g s l

/-! ## Claims -/

/-- C1 counterexample: in `gC1` no cell of the block carries any of the
`N1`/`633`/`T1` header tokens — the header search over the whole block
resolves nothing, so per the claim both roles should stay unresolved and
the mean fields null — yet the code extracts `N1_mean = 123` and
`T1_mean = 456` from the fixed columns 2 and 4 of the `MEAN` row. -/
theorem C1_counterexample :
    extract_wafer_data gC1 =
      [{ lot_id := none, N1_mean := some (PyFloat.fin 123),
         T1_mean := some (PyFloat.fin 456),
         T1_3sigma_mean := none, N1_XY_00 := none }] ∧
    find_column_headers gC1 0 2 = ⟨none, none, none, none⟩ := by
  constructor
  · with_unfolding_all decide
  · with_unfolding_all decide

/-- C1 (amended): for a MEAN anchor the code performs no header search at
all: `N1_mean` and `T1_mean` are read from the fixed columns 2 and 4 of
the first `MEAN` row of the 5-column section, whatever the rows above the
anchor contain, and the column roles are never left unresolved
(`find_column_headers` exists in the source but is never invoked). -/
theorem C1_amended_fixed_mean_columns (g : Grid) (a b r : Nat)
    (hr : (rows5 g a b).find? (fun s => col0Has g s "MEAN") = some r)
    (h2 : 2 < rowLen g r) (h4 : 4 < rowLen g r)
    (hn : floatCell (cellAt g r 2) ≠ none) :
    (extractBlock g a b).N1_mean = floatCell (cellAt g r 2) ∧
    (extractBlock g a b).T1_mean = floatCell (cellAt g r 4) := by
  show (meanSigma g (rows5 g a b)).1 = _ ∧ (meanSigma g (rows5 g a b)).2.1 = _
  rcases hv : floatCell (cellAt g r 2) with _ | v
  · exact absurd hv hn
  · have hread : meanRowRead g r = meanRowT1 g r (some v) := by
      unfold meanRowRead; rw [if_pos h2, hv]
    rcases hw : floatCell (cellAt g r 4) with _ | w
    · have ht1 : meanRowT1 g r (some v) = ((some v, none), true) := by
        unfold meanRowT1; rw [if_pos h4, hw]
      simp only [meanSigma, hr, hread, ht1]
      exact ⟨trivial, trivial⟩
    · have ht1 : meanRowT1 g r (some v) = ((some v, some w), false) := by
        unfold meanRowT1; rw [if_pos h4, hw]
      simp only [meanSigma, hr, hread, ht1]
      by_cases hw0 : pyNe0 w = true <;> simp [hw0]

/-- Witness for the amended C1 at the concrete grid `gC1`. -/
theorem C1_amended_fixed_mean_columns_witness :
    ((rows5 gC1 0 2).find? (fun s => col0Has gC1 s "MEAN") = some 1 ∧
     2 < rowLen gC1 1 ∧ 4 < rowLen gC1 1 ∧ floatCell (cellAt gC1 1 2) ≠ none) ∧
    ((extractBlock gC1 0 2).N1_mean = floatCell (cellAt gC1 1 2) ∧
     (extractBlock gC1 0 2).T1_mean = floatCell (cellAt gC1 1 4)) :=
  ⟨⟨by decide, by decide, by decide, by with_unfolding_all decide⟩,
   C1_amended_fixed_mean_columns gC1 0 2 1 (by decide) (by decide) (by decide)
     (by with_unfolding_all decide)⟩

/-- C2 counterexample: in `gC2` the site header row declares `X` exactly
at column 3, `Y` exactly at column 4 and `N1@633` at column 2 (as the
embedded `find_column_headers` confirms), and the data row is zero at
columns 3 and 4 — per the claim `N1_XY_00` should be that row's value
`"7"` — yet the code inspects the fixed columns 5 and 6, finds no zero
pair, and leaves `N1_XY_00` null. -/
theorem C2_counterexample :
    (extract_wafer_data gC2).map (fun r => r.N1_XY_00) = [none] ∧
    find_column_headers gC2 1 2 = ⟨some 2, none, some 3, some 4⟩ ∧
    cellAt gC2 2 3 = Cell.str "0" ∧ cellAt gC2 2 4 = Cell.str "0" ∧
    parseFloat "0" = some (PyFloat.fin 0) ∧ cellAt gC2 2 2 = Cell.str "7" := by
  refine ⟨?_, ?_, ?_, ?_, ?_, ?_⟩ <;> with_unfolding_all decide

/-- C2 (amended): for a SITE anchor the code never inspects the anchor
row's cells to resolve `X`/`Y`/`N1_633`: the roles are fixed at columns
5, 6 and 2 respectively, and `N1_XY_00` is determined entirely by the
first section row after the anchor whose columns 5 and 6 coerce to zero
(the roles are never unresolved). -/
theorem C2_amended_fixed_site_columns (g : Grid) (a b s : Nat)
    (hs : (rows14 g a b).find? (fun r => col0Has g r "SITE") = some s) :
    (extractBlock g a b).N1_XY_00 =
      ((rows14 g a b).find? (qualifiesXY g s)).map fun r => cellAt g r 2 := by
  show siteRead g (rows14 g a b) = _
  rw [siteRead_eq, hs]

/-- Witness for the amended C2 at the concrete grid `gC2`. -/
theorem C2_amended_fixed_site_columns_witness :
    ((rows14 gC2 0 3).find? (fun r => col0Has gC2 r "SITE") = some 1) ∧
    ((extractBlock gC2 0 3).N1_XY_00 =
      ((rows14 gC2 0 3).find? (qualifiesXY gC2 1)).map fun r => cellAt gC2 r 2) :=
  ⟨by decide, C2_amended_fixed_site_columns gC2 0 3 1 (by decide)⟩

/-- C3 counterexample: in `gC3nan` the `MEAN` row's T1 cell is missing,
so `float(nan)` yields NaN, NaN passes the `is not None and != 0` guard,
and `T1_3sigma_mean` is `6 / nan = NaN` — where the claim demands null
(unresolved `T1_mean`) and "never NaN".  In `gC3inf` the sigma cell reads
`inf`, which `float` accepts, and the result is `inf / 4 = +inf` — where
the claim demands null (non-numeric cell) and "never infinity". -/
theorem C3_counterexample :
    (extract_wafer_data gC3nan).map (fun r => r.T1_3sigma_mean) = [some PyFloat.nan] ∧
    (extract_wafer_data gC3nan).map (fun r => r.T1_mean) = [some PyFloat.nan] ∧
    cellAt gC3nan 1 4 = Cell.empty ∧ notna (cellAt gC3nan 1 4) = false ∧
    (extract_wafer_data gC3inf).map (fun r => r.T1_3sigma_mean) =
      [some (PyFloat.inf false)] ∧
    cellAt gC3inf 2 4 = Cell.str "inf" := by
  refine ⟨?_, ?_, ?_, ?_, ?_, ?_⟩ <;> with_unfolding_all decide

/-- C3 (amended): `T1_3sigma_mean` equals the `3 SIGMA` row's column-4
value divided (with Python float semantics) by `T1_mean` exactly when the
sigma row is found in the 5-column section, its cell coerces (possibly to
NaN or an infinity), and `T1_mean` resolved to a value passing the Python
`!= 0` test — a test that NaN and the infinities pass; it is null in
every other case.  Consequently the result can be NaN or infinite, e.g.
when `T1_mean` is the NaN of a missing cell or the sigma cell reads
`inf`; it is an exact finite rational whenever both operands are finite,
the denominator then being non-zero. -/
theorem C3_amended_sigma_ratio (g : Grid) (a b : Nat) (w : PyFloat) :
    (extractBlock g a b).T1_3sigma_mean = some w ↔
      ∃ t sr v, (extractBlock g a b).T1_mean = some t ∧ pyNe0 t = true ∧
        (rows5 g a b).find? (fun r => col0Has g r "3 SIGMA") = some sr ∧
        4 < rowLen g sr ∧ floatCell (cellAt g sr 4) = some v ∧ w = pyDiv v t :=
  meanSigma_sigma_iff g (rows5 g a b) w

/-- C4 counterexample: in `gC4` the `MEAN` row's N1 cell (`"abc"`) fails
numeric coercion while its T1 cell (`"456"`) parses fine — per the claim
`T1_mean` should still be set to 456 — yet the coercion failure aborts
the whole 5-column step and both fields are null. -/
theorem C4_counterexample :
    (extract_wafer_data gC4).map (fun r => (r.N1_mean, r.T1_mean)) = [(none, none)] ∧
    floatCell (cellAt gC4 1 2) = none ∧
    floatCell (cellAt gC4 1 4) = some (PyFloat.fin 456) := by
  refine ⟨?_, ?_, ?_⟩ <;> with_unfolding_all decide

/-- C4 (amended): the extraction steps fail closed at step granularity,
not field granularity: a coercion failure on the `MEAN` row's N1 cell
aborts the step before the T1 cell is read, leaving `N1_mean`, `T1_mean`
and `T1_3sigma_mean` all null; in the other direction a T1 coercion
failure leaves the already-assigned `N1_mean` set and only `T1_mean`
(and the sigma ratio) null. -/
theorem C4_amended_step_fail_closed (g : Grid) (a b r : Nat)
    (hr : (rows5 g a b).find? (fun s => col0Has g s "MEAN") = some r)
    (h2 : 2 < rowLen g r) :
    (floatCell (cellAt g r 2) = none →
      (extractBlock g a b).N1_mean = none ∧ (extractBlock g a b).T1_mean = none ∧
      (extractBlock g a b).T1_3sigma_mean = none) ∧
    (∀ v, floatCell (cellAt g r 2) = some v → floatCell (cellAt g r 4) = none →
      (extractBlock g a b).N1_mean = some v ∧ (extractBlock g a b).T1_mean = none) := by
  constructor
  · intro hn
    have hms : meanSigma g (rows5 g a b) = (none, none, none) := by
      have hread : meanRowRead g r = ((none, none), true) := by
        unfold meanRowRead; rw [if_pos h2, hn]
      simp only [meanSigma, hr, hread]
    refine ⟨?_, ?_, ?_⟩
    · show (meanSigma g (rows5 g a b)).1 = none; rw [hms]
    · show (meanSigma g (rows5 g a b)).2.1 = none; rw [hms]
    · show (meanSigma g (rows5 g a b)).2.2 = none; rw [hms]
  · intro v hv h4n
    have hms : meanSigma g (rows5 g a b) = (some v, none, none) := by
      have hread : meanRowRead g r = meanRowT1 g r (some v) := by
        unfold meanRowRead; rw [if_pos h2, hv]
      by_cases h4 : 4 < rowLen g r
      · have ht1 : meanRowT1 g r (some v) = ((some v, none), true) := by
          unfold meanRowT1; rw [if_pos h4, h4n]
        simp only [meanSigma, hr, hread, ht1]
      · have ht1 : meanRowT1 g r (some v) = ((some v, none), false) := by
          unfold meanRowT1; rw [if_neg h4]
        simp only [meanSigma, hr, hread, ht1]
    constructor
    · show (meanSigma g (rows5 g a b)).1 = some v; rw [hms]
    · show (meanSigma g (rows5 g a b)).2.1 = none; rw [hms]

/-- Witness for the amended C4 at the concrete grid `gC4`. -/
theorem C4_amended_step_fail_closed_witness :
    ((rows5 gC4 0 2).find? (fun s => col0Has gC4 s "MEAN") = some 1 ∧
     2 < rowLen gC4 1) ∧
    ((floatCell (cellAt gC4 1 2) = none →
      (extractBlock gC4 0 2).N1_mean = none ∧ (extractBlock gC4 0 2).T1_mean = none ∧
      (extractBlock gC4 0 2).T1_3sigma_mean = none) ∧
     (∀ v, floatCell (cellAt gC4 1 2) = some v → floatCell (cellAt gC4 1 4) = none →
      (extractBlock gC4 0 2).N1_mean = some v ∧ (extractBlock gC4 0 2).T1_mean = none)) :=
  ⟨⟨by decide, by decide⟩, C4_amended_step_fail_closed gC4 0 2 1 (by decide) (by decide)⟩

/-- C5: with N `WAFER ID` marker positions (N ≥ 1) the pipeline produces
exactly N blocks and N result records; the marker rows come in ascending
order, and block i spans from its marker row to the next marker row, or
to the grid's row count for the last block.  The witness grid is the
spec's scenario: markers at rows 0 and 50 of a 100-row grid, blocks
`[0,50)` and `[50,100)`. -/
theorem C5_block_partition (g : Grid) (h : 1 ≤ (waferIdRows g).length) :
    (extract_wafer_data g).length = (waferIdRows g).length ∧
    (blocks g).length = (waferIdRows g).length ∧
    List.Sorted (· ≤ ·) (waferIdRows g) ∧
    ∀ i, i < (waferIdRows g).length →
      (blocks g).getD i (0, 0) =
        ((waferIdRows g).getD i 0, (waferIdRows g).getD (i + 1) (nrows g)) := by
  refine ⟨?_, ?_, waferIdRows_sorted g, ?_⟩
  · unfold extract_wafer_data
    rw [List.length_map]
    exact blocksAux_length _ _
  · exact blocksAux_length _ _
  · intro i hi
    exact blocksAux_getD _ _ i hi

/-- Witness for C5 at the 100-row two-marker grid `gC5`. -/
theorem C5_block_partition_witness :
    1 ≤ (waferIdRows gC5).length ∧
    ((extract_wafer_data gC5).length = (waferIdRows gC5).length ∧
     (blocks gC5).length = (waferIdRows gC5).length ∧
     List.Sorted (· ≤ ·) (waferIdRows gC5) ∧
     ∀ i, i < (waferIdRows gC5).length →
       (blocks gC5).getD i (0, 0) =
         ((waferIdRows gC5).getD i 0, (waferIdRows gC5).getD (i + 1) (nrows gC5))) :=
  ⟨by decide, C5_block_partition gC5 (by decide)⟩

/-- C6 counterexample: in `gC6` the only `SLOT` marker sits at position
(1, 0) inside the block, with the value `"LOT42"` immediately to its
right and the grid wide enough — per the claim `lot_id` should be
`"LOT42"` — yet the row has three non-empty cells, so the code's scan of
the 2-column section never sees it and `lot_id` stays null. -/
theorem C6_counterexample :
    (extract_wafer_data gC6).map (fun r => r.lot_id) = [none] ∧
    findPositions gC6 "SLOT" = [(1, 0)] ∧
    1 < rowLen gC6 1 ∧ cellAt gC6 1 1 = Cell.str "LOT42" := by
  refine ⟨?_, ?_, ?_, ?_⟩ <;> with_unfolding_all decide

/-- C6 (amended): `lot_id` equals the cell at column 1 of the first row
of the block's 2-column section (rows with exactly two non-empty cells)
whose column-0 text contains `SLOT` case-insensitively and whose row is
wider than one column; a `SLOT` marker in any other column or in a row
with a different non-empty-cell count is ignored, and with no such row
`lot_id` is null — it never carries over another block's value, since
each block's record is computed from its own row range alone. -/
theorem C6_amended_slot_two_col_only (g : Grid) (a b : Nat) :
    (extractBlock g a b).lot_id =
      ((rows2 g a b).find? (fun r => col0Has g r "SLOT" && decide (1 < rowLen g r))).map
        fun r => cellAt g r 1 :=
  slotRead_eq_find? g (rows2 g a b)

/-- C7 counterexample: in `gC7` the site header's own cells agree with
the fixed columns (`X` at 5, `Y` at 6, `N1@633` at 2), and the first row
after the header whose X and Y columns are zero is row 2 with N1 value
`"7"` — per the claim `N1_XY_00` should be `"7"` — yet row 2 has only 9
non-empty cells, so the code skips it and returns row 3's value `"9"`. -/
theorem C7_counterexample :
    (extract_wafer_data gC7).map (fun r => r.N1_XY_00) = [some (Cell.str "9")] ∧
    find_column_headers gC7 1 2 = ⟨some 2, none, some 5, some 6⟩ ∧
    nonEmptyCount (rowAt gC7 2) = 9 ∧
    floatCell (cellAt gC7 2 5) = some (PyFloat.fin 0) ∧
    floatCell (cellAt gC7 2 6) = some (PyFloat.fin 0) ∧
    cellAt gC7 2 2 = Cell.str "7" ∧ Cell.str "9" ≠ Cell.str "7" := by
  refine ⟨?_, ?_, ?_, ?_, ?_, ?_, ?_⟩ <;> with_unfolding_all decide

/-- C7 (amended): `N1_XY_00` comes from the first row after the SITE row
among the block's rows having at least ten non-empty cells whose fixed
columns 5 and 6 both coerce to zero (earliest such row wins); rows with
fewer than ten non-empty cells are never scanned, and the value read is
the raw cell at the fixed column 2. -/
theorem C7_amended_band_first_match (g : Grid) (a b s r : Nat)
    (hs : (rows14 g a b).find? (fun x => col0Has g x "SITE") = some s)
    (hr : r ∈ rows14 g a b) (hq : qualifiesXY g s r = true)
    (hfirst : ∀ x ∈ rows14 g a b, qualifiesXY g s x = true → r ≤ x) :
    (extractBlock g a b).N1_XY_00 = some (cellAt g r 2) := by
  have hfind : (rows14 g a b).find? (qualifiesXY g s) = some r :=
    find?_first (sectionRows_pairwise g a b _) hr hq hfirst
  show siteRead g (rows14 g a b) = _
  rw [siteRead_eq, hs]
  show Option.map (fun x => cellAt g x 2) ((rows14 g a b).find? (qualifiesXY g s)) =
    some (cellAt g r 2)
  rw [hfind]
  rfl

/-- Witness for the amended C7 at the concrete grid `gC7` (row 3 is the
first qualifying section row). -/
theorem C7_amended_band_first_match_witness :
    ((rows14 gC7 0 4).find? (fun x => col0Has gC7 x "SITE") = some 1 ∧
     3 ∈ rows14 gC7 0 4 ∧ qualifiesXY gC7 1 3 = true ∧
     (∀ x ∈ rows14 gC7 0 4, qualifiesXY gC7 1 x = true → 3 ≤ x)) ∧
    (extractBlock gC7 0 4).N1_XY_00 = some (cellAt gC7 3 2) :=
  ⟨⟨by decide, by decide, by with_unfolding_all decide, by with_unfolding_all decide⟩,
   C7_amended_band_first_match gC7 0 4 1 3 (by decide) (by decide)
     (by with_unfolding_all decide) (by with_unfolding_all decide)⟩

/-- C8 counterexample: the identifier scan's marker string is `3 SIGMA`
with the space; the cell `"3SIGMA"` of `gC8ns` contains the no-space
spelling, yet the scan records no position for it, and the extraction
(which also tests `'3 SIGMA' in …`) leaves the ratio null — while the
identical block spelled `"3 SIGMA"` produces the ratio 6/4 = 3/2. -/
theorem C8_counterexample :
    findPositions gC8ns "3 SIGMA" = [] ∧
    hasSub "3SIGMA".data (upper (cellText (cellAt gC8ns 2 0)).data) = true ∧
    "3 SIGMA" ∈ key_identifiers ∧ "3SIGMA" ∉ key_identifiers ∧
    (extract_wafer_data gC8ns).map (fun r => r.T1_3sigma_mean) = [none] ∧
    (extract_wafer_data gC8sp).map (fun r => r.T1_3sigma_mean) =
      [some (PyFloat.fin (3 / 2))] := by
  refine ⟨?_, ?_, ?_, ?_, ?_, ?_⟩ <;> with_unfolding_all decide

/-- C8 (amended): the scan recognizes only the spelling `3 SIGMA` with
the space: a cell's position is recorded for the SIGMA3 marker exactly
when its upper-cased text contains `"3 SIGMA"` as a substring; the
no-space spelling `3SIGMA` is not matched. -/
theorem C8_amended_space_spelling_only (g : Grid) (r c : Nat) :
    (r, c) ∈ findPositions g "3 SIGMA" ↔
      ∃ row, g.get? r = some row ∧ ∃ cell, row.get? c = some cell ∧
        hasSub "3 SIGMA".data (upper (cellText cell).data) = true := by
  rw [mem_findPositions]
  unfold matchesIdent
  rw [show upper "3 SIGMA".data = "3 SIGMA".data from rfl]

/-- C9: a grid with zero `WAFER ID` marker positions yields an empty
result list; extraction is a total function of the grid, so no exception
reaches the caller and the outcome is an ordinary empty result. -/
theorem C9_no_marker_empty_result (g : Grid) (h : waferIdRows g = []) :
    extract_wafer_data g = [] := by
  unfold extract_wafer_data blocks
  rw [h]
  rfl

/-- Witness for C9 at a concrete grid with no `WAFER ID` cell. -/
theorem C9_no_marker_empty_result_witness :
    waferIdRows gC9 = [] ∧ extract_wafer_data gC9 = [] :=
  ⟨by decide, C9_no_marker_empty_result gC9 (by decide)⟩

/-- C10: whenever a field of a block's record is set — each field taken
on its own, whatever the block's other fields did — the rows that
produced it obey the implicit column-0 and cell-count gates: a `SLOT` row
has exactly two non-empty cells, `MEAN` and `3 SIGMA` rows have four to
six, and the `Site #` header and the scanned `X=0, Y=0` data row have at
least ten, with the marker text always in column 0; marker occurrences
indexed by the scan that break these gates are ignored by extraction. -/
theorem C10_section_bands_gate_extraction (g : Grid) (a b : Nat) :
    (∀ v1 : Cell, (extractBlock g a b).lot_id = some v1 →
      ∃ r row, a ≤ r ∧ r < b ∧ g.get? r = some row ∧ nonEmptyCount row = 2 ∧
        col0Has g r "SLOT" = true ∧ v1 = cellAt g r 1) ∧
    (∀ v2 : PyFloat, (extractBlock g a b).N1_mean = some v2 →
      ∃ r row, a ≤ r ∧ r < b ∧ g.get? r = some row ∧
        4 ≤ nonEmptyCount row ∧ nonEmptyCount row ≤ 6 ∧
        col0Has g r "MEAN" = true ∧ floatCell (cellAt g r 2) = some v2) ∧
    (∀ q : PyFloat, (extractBlock g a b).T1_3sigma_mean = some q →
      ∃ r row, a ≤ r ∧ r < b ∧ g.get? r = some row ∧
        4 ≤ nonEmptyCount row ∧ nonEmptyCount row ≤ 6 ∧
        col0Has g r "3 SIGMA" = true) ∧
    (∀ v4 : Cell, (extractBlock g a b).N1_XY_00 = some v4 →
      ∃ s srow r row, a ≤ s ∧ s < b ∧ g.get? s = some srow ∧
        10 ≤ nonEmptyCount srow ∧ col0Has g s "SITE" = true ∧
        a ≤ r ∧ r < b ∧ g.get? r = some row ∧ 10 ≤ nonEmptyCount row ∧
        s < r ∧ qualifiesXY g s r = true ∧ v4 = cellAt g r 2) := by
  refine ⟨?_, ?_, ?_, ?_⟩
  · intro v1 h1
    have h1' : slotRead g (rows2 g a b) = some v1 := h1
    rw [slotRead_eq_find?] at h1'
    rcases Option.map_eq_some'.mp h1' with ⟨r, hfind, hcell⟩
    have hpred := List.find?_some hfind
    have hmem := List.mem_of_find?_eq_some hfind
    rcases mem_sectionRows.mp hmem with ⟨ha, hb, row, hrow, hcount⟩
    simp only [Bool.and_eq_true, decide_eq_true_eq] at hpred
    refine ⟨r, row, ha, hb, hrow, ?_, hpred.1, hcell.symm⟩
    simpa using hcount
  · intro v2 h2
    rcases meanSigma_n1_some (l := rows5 g a b) h2 with ⟨r, hfind, _, hfl⟩
    have hpred := List.find?_some hfind
    have hmem := List.mem_of_find?_eq_some hfind
    rcases mem_sectionRows.mp hmem with ⟨ha, hb, row, hrow, hcount⟩
    simp only [Bool.and_eq_true, decide_eq_true_eq] at hcount
    exact ⟨r, row, ha, hb, hrow, hcount.1, hcount.2, hpred, hfl⟩
  · intro q h3
    rcases (meanSigma_sigma_iff g (rows5 g a b) q).mp h3 with
      ⟨t, sr, v, _, _, hfind, _, _, _⟩
    have hpred := List.find?_some hfind
    have hmem := List.mem_of_find?_eq_some hfind
    rcases mem_sectionRows.mp hmem with ⟨ha, hb, row, hrow, hcount⟩
    simp only [Bool.and_eq_true, decide_eq_true_eq] at hcount
    exact ⟨sr, row, ha, hb, hrow, hcount.1, hcount.2, hpred⟩
  · intro v4 h4
    have h4' : siteRead g (rows14 g a b) = some v4 := h4
    rw [siteRead_eq] at h4'
    cases hsf : (rows14 g a b).find? (fun x => col0Has g x "SITE") with
    | none => rw [hsf] at h4'; simp at h4'
    | some s =>
      rw [hsf] at h4'
      have h4'' : ((rows14 g a b).find? (qualifiesXY g s)).map
          (fun r => cellAt g r 2) = some v4 := h4'
      rcases Option.map_eq_some'.mp h4'' with ⟨r, hfind, hcell⟩
      have hq := List.find?_some hfind
      have hmem := List.mem_of_find?_eq_some hfind
      rcases mem_sectionRows.mp hmem with ⟨ha, hb, row, hrow, hcount⟩
      simp only [decide_eq_true_eq] at hcount
      have hspred := List.find?_some hsf
      have hsmem := List.mem_of_find?_eq_some hsf
      rcases mem_sectionRows.mp hsmem with ⟨hsa, hsb, srow, hsrow, hscount⟩
      simp only [decide_eq_true_eq] at hscount
      have hsr : s < r := by
        have := hq
        unfold qualifiesXY at this
        simp only [Bool.and_eq_true, decide_eq_true_eq] at this
        exact this.1.1.1
      exact ⟨s, srow, r, row, hsa, hsb, hsrow, hscount, hspred, ha, hb, hrow,
        hcount, hsr, hq, hcell.symm⟩

/-- Witness for C10 at the full block `gC10`: each of the four
implications is applied on its own to the field it gates. -/
theorem C10_section_bands_gate_extraction_witness :
    ((extractBlock gC10 0 6).lot_id = some (Cell.str "LOT42") ∧
     (extractBlock gC10 0 6).N1_mean = some (PyFloat.fin 2) ∧
     (extractBlock gC10 0 6).T1_3sigma_mean = some (PyFloat.fin (3 / 2)) ∧
     (extractBlock gC10 0 6).N1_XY_00 = some (Cell.str "9")) ∧
    ((∃ r row, 0 ≤ r ∧ r < 6 ∧ gC10.get? r = some row ∧ nonEmptyCount row = 2 ∧
      col0Has gC10 r "SLOT" = true ∧ Cell.str "LOT42" = cellAt gC10 r 1) ∧
     (∃ r row, 0 ≤ r ∧ r < 6 ∧ gC10.get? r = some row ∧
      4 ≤ nonEmptyCount row ∧ nonEmptyCount row ≤ 6 ∧
      col0Has gC10 r "MEAN" = true ∧ floatCell (cellAt gC10 r 2) = some (PyFloat.fin 2)) ∧
     (∃ r row, 0 ≤ r ∧ r < 6 ∧ gC10.get? r = some row ∧
      4 ≤ nonEmptyCount row ∧ nonEmptyCount row ≤ 6 ∧
      col0Has gC10 r "3 SIGMA" = true) ∧
     (∃ s srow r row, 0 ≤ s ∧ s < 6 ∧ gC10.get? s = some srow ∧
      10 ≤ nonEmptyCount srow ∧ col0Has gC10 s "SITE" = true ∧
      0 ≤ r ∧ r < 6 ∧ gC10.get? r = some row ∧ 10 ≤ nonEmptyCount row ∧
      s < r ∧ qualifiesXY gC10 s r = true ∧ Cell.str "9" = cellAt gC10 r 2)) := by
  have w1 : (extractBlock gC10 0 6).lot_id = some (Cell.str "LOT42") := by
    with_unfolding_all decide
  have w2 : (extractBlock gC10 0 6).N1_mean = some (PyFloat.fin 2) := by
    with_unfolding_all decide
  have w3 : (extractBlock gC10 0 6).T1_3sigma_mean = some (PyFloat.fin (3 / 2)) := by
    with_unfolding_all decide
  have w4 : (extractBlock gC10 0 6).N1_XY_00 = some (Cell.str "9") := by
    with_unfolding_all decide
  exact ⟨⟨w1, w2, w3, w4⟩,
    (C10_section_bands_gate_extraction gC10 0 6).1 (Cell.str "LOT42") w1,
    (C10_section_bands_gate_extraction gC10 0 6).2.1 (PyFloat.fin 2) w2,
    (C10_section_bands_gate_extraction gC10 0 6).2.2.1 (PyFloat.fin (3 / 2)) w3,
    (C10_section_bands_gate_extraction gC10 0 6).2.2.2 (Cell.str "9") w4⟩

end WaferExtract
